import Mathlib

/-!
The munix `init`: the debug-log bootstrap sequence

A shallow embedding of `user/util-munix/init.c` and the properties of the
sequence of system calls its `main` issues.

```c
int main(int argc, char** argv) {
    syscall(SYS_debug_log, "init: hello, world!");
    syscall(SYS_debug_log, "init: dumping argv...");

    for (int i = 0; i < argc; i++) {
        syscall(SYS_debug_log, argv);
    }
}
```

The observable behaviour of the program is the ordered list of system calls it
issues.  The machine state threaded through `main` is the user memory together
with that list.  `int` values are mathematical integers restricted to
`INT_MIN .. INT_MAX`; a signed overflow of `i++` (undefined behaviour in C) is
an explicit fault of the model, and so is an access to unmapped memory.
-/

namespace Munix.Init

/-! ## Data model -/

/-- Addresses of the user address space; `0` is the null pointer. -/
abbrev Addr := Nat

/-- Largest value of a C `int` (32 bit). -/
def INT_MAX : Int := 2147483647

/-- Smallest value of a C `int` (32 bit). -/
def INT_MIN : Int := -2147483648

/-- The values an `int` parameter can hold. -/
def IsInt (x : Int) : Prop := INT_MIN ≤ x ∧ x ≤ INT_MAX

instance (x : Int) : Decidable (IsInt x) :=
  inferInstanceAs (Decidable (INT_MIN ≤ x ∧ x ≤ INT_MAX))

/-- An object stored in user memory: a null-terminated text, or an array of
`char*` pointers (such as the argument vector the loader builds). -/
inductive Obj where
  | text (s : String)
  | ptrArray (ps : List Addr)
  deriving DecidableEq, Repr

/-- User memory: the object that starts at an address, if the address is mapped. -/
abbrev Memory := Addr → Option Obj

/-- A value passed to the kernel after the call number.  `literal t` is the
address of the string literal `t` of the program image; `pointer p` is a
run-time pointer value. -/
inductive Arg where
  | literal (t : String)
  | pointer (p : Addr)
  deriving DecidableEq, Repr

/-- One system call as the kernel receives it: the call number and the
arguments that follow it. -/
structure Syscall where
  nr : Nat
  args : List Arg
  deriving DecidableEq, Repr

/-- The machine state: user memory and the system calls issued so far, oldest first. -/
structure Machine where
  mem : Memory
  trace : List Syscall

/-- The ways a run can go wrong in the model. -/
inductive Fault where
  | signedOverflow
  | badAccess
  deriving DecidableEq, Repr

/-! ## The program -/

/-- The libc `syscall(number, ...)` wrapper, seen from user space: the call is
handed to the kernel, its return value is not used, user memory is left as it is. -/
def syscall (nr : Nat) (args : List Arg) (m : Machine) : Machine :=
  ⟨m.mem, m.trace ++ [⟨nr, args⟩]⟩

/-- The loop of `main`, lines 8-10, entered with loop counter `i`:
`for (; i < argc; i++) { syscall(SYS_debug_log, argv); }`. -/
def argvLoop (SYS_debug_log : Nat) (argc : Int) (argv : Addr) (i : Int) (m : Machine) :
    Except Fault Machine :=
  if i < argc then
    let m1 := syscall SYS_debug_log [Arg.pointer argv] m
    if INT_MAX < i + 1 then Except.error Fault.signedOverflow
    else argvLoop SYS_debug_log argc argv (i + 1) m1
  else Except.ok m
termination_by (argc - i).toNat
decreasing_by omega

/-- The function `main` of `init.c`.  `SYS_debug_log` is the call number that
`<sys/syscall.h>` defines. -/
def main (SYS_debug_log : Nat) (argc : Int) (argv : Addr) (m : Machine) :
    Except Fault Machine :=
  let m1 := syscall SYS_debug_log [Arg.literal "init: hello, world!"] m
  let m2 := syscall SYS_debug_log [Arg.literal "init: dumping argv..."] m1
  argvLoop SYS_debug_log argc argv 0 m2

/-! ## The sequence the specification describes -/

/-- The C expression `argv[i]`: the `i`-th element of the pointer array that
starts at `argv`.  Reading from an address that holds no pointer array, or past
the end of the array, is a bad access. -/
def loadElem (mem : Memory) (argv : Addr) (i : Nat) : Except Fault Addr :=
  match mem argv with
  | some (Obj.ptrArray ps) =>
    match ps[i]? with
    | some p => Except.ok p
    | none => Except.error Fault.badAccess
  | _ => Except.error Fault.badAccess

/-- Specification, section 4.1 step 3: for the elements `i, i+1, ..` (`n` of
them) of the argument vector, in index order, one debug-log call each, passing
that element's text reference. -/
def specDumps (nr : Nat) (mem : Memory) (argv : Addr) : Nat → Nat → Except Fault (List Syscall)
  | _, 0 => Except.ok []
  | i, n + 1 =>
    match loadElem mem argv i with
    | Except.error f => Except.error f
    | Except.ok p =>
      match specDumps nr mem argv (i + 1) n with
      | Except.error f => Except.error f
      | Except.ok rest => Except.ok (⟨nr, [Arg.pointer p]⟩ :: rest)

/-- Specification, section 4.1 steps 1-3: the calls of one run of the entry
sequence as the specification words it: the two banners, then every element of
the argument vector in index order. -/
def specCalls (nr : Nat) (mem : Memory) (argc : Int) (argv : Addr) : Except Fault (List Syscall) :=
  match specDumps nr mem argv 0 argc.toNat with
  | Except.error f => Except.error f
  | Except.ok dumps =>
    Except.ok (⟨nr, [Arg.literal "init: hello, world!"]⟩ ::
      ⟨nr, [Arg.literal "init: dumping argv..."]⟩ :: dumps)

/-- The text a text reference denotes in a given memory, if it denotes one. -/
def textOf (mem : Memory) : Arg → Option String
  | Arg.literal t => some t
  | Arg.pointer p =>
    match mem p with
    | some (Obj.text s) => some s
    | _ => none

/-- A memory as the loader leaves it for `init --flag value`: the argument
vector at address 1000, its three texts at 2000, 2005 and 2012. -/
def sampleMem : Memory := fun a =>
  if a = 1000 then some (Obj.ptrArray [2000, 2005, 2012])
  else if a = 2000 then some (Obj.text "init")
  else if a = 2005 then some (Obj.text "--flag")
  else if a = 2012 then some (Obj.text "value")
  else none

/-- A memory in which nothing is mapped. -/
def emptyMem : Memory := fun _ => none

/-- The calls a run added to the trace: what `after` holds beyond `before`. -/
def issued (before after : Machine) : List Syscall :=
  after.trace.drop before.trace.length

/-- A banner invocation: its one argument is a string literal of the program image. -/
def isBanner (c : Syscall) : Bool :=
  match c.args with
  | [Arg.literal _] => true
  | _ => false

/-- An argument-dump invocation: its one argument is a run-time pointer. -/
def isArgDump (c : Syscall) : Bool :=
  match c.args with
  | [Arg.pointer _] => true
  | _ => false

/-- The first banner call, line 5. -/
def helloCall (nr : Nat) : Syscall := ⟨nr, [Arg.literal "init: hello, world!"]⟩

/-- The second banner call, line 6. -/
def dumpingCall (nr : Nat) : Syscall := ⟨nr, [Arg.literal "init: dumping argv..."]⟩

/-! ## The loop and `main` in closed form -/

theorem argvLoop_run (nr : Nat) (argc : Int) (argv : Addr) (h : argc ≤ INT_MAX) :
    ∀ (n : Nat) (i : Int) (m : Machine), (argc - i).toNat = n →
      argvLoop nr argc argv i m =
        Except.ok ⟨m.mem, m.trace ++ List.replicate n ⟨nr, [Arg.pointer argv]⟩⟩
  | 0, i, m, hn => by
    rw [argvLoop]
    have h1 : ¬ i < argc := by omega
    simp [h1]
  | n + 1, i, m, hn => by
    rw [argvLoop]
    have h1 : i < argc := by omega
    have h2 : ¬ INT_MAX < i + 1 := by omega
    simp only [h1, h2, if_true, if_false]
    rw [argvLoop_run nr argc argv h n (i + 1) _ (by omega)]
    simp [syscall, List.replicate_succ]

theorem main_run (nr : Nat) (argc : Int) (argv : Addr) (m : Machine) (h : argc ≤ INT_MAX) :
    main nr argc argv m =
      Except.ok ⟨m.mem, m.trace ++
        (⟨nr, [Arg.literal "init: hello, world!"]⟩ ::
         ⟨nr, [Arg.literal "init: dumping argv..."]⟩ ::
         List.replicate argc.toNat ⟨nr, [Arg.pointer argv]⟩)⟩ := by
  unfold main
  rw [argvLoop_run nr argc argv h argc.toNat 0 _ (by simp)]
  simp [syscall]

theorem issued_append (m : Machine) (mem : Memory) (cs : List Syscall) :
    issued m ⟨mem, m.trace ++ cs⟩ = cs := by
  simp [issued]

/-- The calls of one run of `main`, for every `int` argument count. -/
theorem main_issued (nr : Nat) (argc : Int) (argv : Addr) (m : Machine) (h : argc ≤ INT_MAX) :
    ∃ r, main nr argc argv m = Except.ok r ∧ r.mem = m.mem ∧
      r.trace = m.trace ++ (helloCall nr :: dumpingCall nr ::
        List.replicate argc.toNat ⟨nr, [Arg.pointer argv]⟩) ∧
      issued m r = helloCall nr :: dumpingCall nr ::
        List.replicate argc.toNat ⟨nr, [Arg.pointer argv]⟩ :=
  ⟨_, main_run nr argc argv m h, rfl, rfl, issued_append m _ _⟩

/-- The overflow guard of the model is live: a counter at `INT_MAX` that had to
be incremented once more would fault. -/
theorem argvLoop_overflow_guard (nr : Nat) (argv : Addr) (m : Machine) :
    argvLoop nr (INT_MAX + 1) argv INT_MAX m = Except.error Fault.signedOverflow := by
  rw [argvLoop]
  simp [INT_MAX]

/-! ## The claims -/

/-- C1, evaluated on the code: for `argv = ["init", "--flag", "value"]` (vector
at address 1000, elements 2000, 2005, 2012) the sequence the specification
describes passes the three elements, whose texts are "init", "--flag", "value";
`main` passes the address of the vector itself in all three dump calls, a value
that differs from every element and denotes no text. -/
theorem C1_dump_passes_vector_not_element :
    specCalls 7 sampleMem 3 1000 =
      Except.ok [helloCall 7, dumpingCall 7, ⟨7, [Arg.pointer 2000]⟩,
        ⟨7, [Arg.pointer 2005]⟩, ⟨7, [Arg.pointer 2012]⟩] ∧
    (main 7 3 1000 ⟨sampleMem, []⟩).map (fun r => r.trace) =
      Except.ok [helloCall 7, dumpingCall 7, ⟨7, [Arg.pointer 1000]⟩,
        ⟨7, [Arg.pointer 1000]⟩, ⟨7, [Arg.pointer 1000]⟩] ∧
    loadElem sampleMem 1000 0 = Except.ok 2000 ∧
    textOf sampleMem (Arg.pointer 2000) = some "init" ∧
    textOf sampleMem (Arg.pointer 1000) = none ∧
    (main 7 3 1000 ⟨sampleMem, []⟩).map (fun r => r.trace) ≠ specCalls 7 sampleMem 3 1000 := by
  have hm : (main 7 3 1000 ⟨sampleMem, []⟩).map (fun r => r.trace) =
      Except.ok [helloCall 7, dumpingCall 7, ⟨7, [Arg.pointer 1000]⟩,
        ⟨7, [Arg.pointer 1000]⟩, ⟨7, [Arg.pointer 1000]⟩] := by
    rw [main_run 7 3 1000 _ (by decide)]
    rfl
  have hs : specCalls 7 sampleMem 3 1000 =
      Except.ok [helloCall 7, dumpingCall 7, ⟨7, [Arg.pointer 2000]⟩,
        ⟨7, [Arg.pointer 2005]⟩, ⟨7, [Arg.pointer 2012]⟩] := by
    rfl
  refine ⟨hs, hm, rfl, rfl, rfl, ?_⟩
  rw [hm, hs]
  intro h
  have h1 := Except.ok.inj h
  exact absurd h1 (by decide)

/-- C2: for every argument count `N ≥ 0` that an `int` can hold, `main` returns
and has issued exactly `N + 2` calls: two banner invocations followed by `N`
argument-dump invocations. -/
theorem C2_call_count (nr N : Nat) (argv : Addr) (m : Machine) (h : (N : Int) ≤ INT_MAX) :
    ∃ r, main nr (N : Int) argv m = Except.ok r ∧
      (issued m r).length = N + 2 ∧
      ((issued m r).take 2).length = 2 ∧
      (∀ c ∈ (issued m r).take 2, isBanner c = true) ∧
      ((issued m r).drop 2).length = N ∧
      (∀ c ∈ (issued m r).drop 2, isArgDump c = true) := by
  obtain ⟨r, hr, -, -, hi⟩ := main_issued nr (N : Int) argv m h
  refine ⟨r, hr, ?_⟩
  rw [hi]
  refine ⟨by simp, by simp, ?_, by simp, ?_⟩
  · intro c hc
    simp [helloCall, dumpingCall] at hc
    rcases hc with rfl | rfl <;> rfl
  · intro c hc
    simp at hc
    rw [hc.2]
    rfl

theorem C2_call_count_witness :
    ((3 : Nat) : Int) ≤ INT_MAX ∧
    ∃ r, main 7 ((3 : Nat) : Int) 1000 ⟨sampleMem, []⟩ = Except.ok r ∧
      (issued ⟨sampleMem, []⟩ r).length = 3 + 2 ∧
      ((issued ⟨sampleMem, []⟩ r).take 2).length = 2 ∧
      (∀ c ∈ (issued ⟨sampleMem, []⟩ r).take 2, isBanner c = true) ∧
      ((issued ⟨sampleMem, []⟩ r).drop 2).length = 3 ∧
      (∀ c ∈ (issued ⟨sampleMem, []⟩ r).drop 2, isArgDump c = true) :=
  ⟨by decide, C2_call_count 7 3 1000 ⟨sampleMem, []⟩ (by decide)⟩

/-- C3: for every input, the calls of `main` are, in this order, the banner
"init: hello, world!", the banner "init: dumping argv...", and then the
argument-dump invocations only: every call after the second is an argument dump
and none of them is a banner. -/
theorem C3_banners_then_dumps (nr : Nat) (argc : Int) (argv : Addr) (m : Machine)
    (h : IsInt argc) :
    ∃ r dumps, main nr argc argv m = Except.ok r ∧
      issued m r = ⟨nr, [Arg.literal "init: hello, world!"]⟩ ::
        ⟨nr, [Arg.literal "init: dumping argv..."]⟩ :: dumps ∧
      ∀ d ∈ dumps, isArgDump d = true ∧ isBanner d = false := by
  obtain ⟨r, hr, -, -, hi⟩ := main_issued nr argc argv m h.2
  refine ⟨r, List.replicate argc.toNat ⟨nr, [Arg.pointer argv]⟩, hr, hi, ?_⟩
  intro d hd
  rw [(List.mem_replicate.mp hd).2]
  exact ⟨rfl, rfl⟩

theorem C3_banners_then_dumps_witness :
    IsInt 3 ∧
    ∃ r dumps, main 7 3 1000 ⟨sampleMem, []⟩ = Except.ok r ∧
      issued ⟨sampleMem, []⟩ r = ⟨7, [Arg.literal "init: hello, world!"]⟩ ::
        ⟨7, [Arg.literal "init: dumping argv..."]⟩ :: dumps ∧
      ∀ d ∈ dumps, isArgDump d = true ∧ isBanner d = false :=
  ⟨by decide, C3_banners_then_dumps 7 3 1000 ⟨sampleMem, []⟩ (by decide)⟩

/-- C4: the two banner invocations are constant: for any two inputs, the first
two calls of the two runs are the same two calls, carrying the texts
"init: hello, world!" and "init: dumping argv...", whatever the argument counts,
the argument vectors and the memories are. -/
theorem C4_banners_constant (nr : Nat) (argc1 argc2 : Int) (argv1 argv2 : Addr)
    (m1 m2 : Machine) (h1 : IsInt argc1) (h2 : IsInt argc2) :
    ∃ r1 r2, main nr argc1 argv1 m1 = Except.ok r1 ∧ main nr argc2 argv2 m2 = Except.ok r2 ∧
      (issued m1 r1).take 2 = (issued m2 r2).take 2 ∧
      ((issued m1 r1).take 2).map (fun c => c.args) =
        [[Arg.literal "init: hello, world!"], [Arg.literal "init: dumping argv..."]] := by
  obtain ⟨r1, hr1, -, -, hi1⟩ := main_issued nr argc1 argv1 m1 h1.2
  obtain ⟨r2, hr2, -, -, hi2⟩ := main_issued nr argc2 argv2 m2 h2.2
  refine ⟨r1, r2, hr1, hr2, ?_, ?_⟩
  · rw [hi1, hi2]
    simp
  · rw [hi1]
    simp [helloCall, dumpingCall]

theorem C4_banners_constant_witness :
    IsInt 0 ∧ IsInt 3 ∧
    ∃ r1 r2, main 7 0 0 ⟨emptyMem, []⟩ = Except.ok r1 ∧
      main 7 3 1000 ⟨sampleMem, []⟩ = Except.ok r2 ∧
      (issued ⟨emptyMem, []⟩ r1).take 2 = (issued ⟨sampleMem, []⟩ r2).take 2 ∧
      ((issued ⟨emptyMem, []⟩ r1).take 2).map (fun c => c.args) =
        [[Arg.literal "init: hello, world!"], [Arg.literal "init: dumping argv..."]] :=
  ⟨by decide, by decide,
    C4_banners_constant 7 0 3 0 1000 ⟨emptyMem, []⟩ ⟨sampleMem, []⟩ (by decide) (by decide)⟩

/-- C5: every call `main` issues, for every input, carries the one call number
`SYS_debug_log` and exactly one argument after it; `main` issues no other
system call. -/
theorem C5_one_call_number_one_argument (nr : Nat) (argc : Int) (argv : Addr) (m : Machine)
    (h : IsInt argc) :
    ∃ r, main nr argc argv m = Except.ok r ∧
      ∀ c ∈ issued m r, c.nr = nr ∧ c.args.length = 1 := by
  obtain ⟨r, hr, -, -, hi⟩ := main_issued nr argc argv m h.2
  refine ⟨r, hr, ?_⟩
  rw [hi]
  intro c hc
  simp [helloCall, dumpingCall] at hc
  rcases hc with rfl | rfl | ⟨-, rfl⟩ <;> exact ⟨rfl, rfl⟩

theorem C5_one_call_number_one_argument_witness :
    IsInt 3 ∧
    ∃ r, main 7 3 1000 ⟨sampleMem, []⟩ = Except.ok r ∧
      ∀ c ∈ issued ⟨sampleMem, []⟩ r, c.nr = 7 ∧ c.args.length = 1 :=
  ⟨by decide, C5_one_call_number_one_argument 7 3 1000 ⟨sampleMem, []⟩ (by decide)⟩

/-- C6: the calls of a run are a function of `(argc, argv)` alone: there is one
list of calls that every run with this input issues, whatever state it starts
from; in particular a second run started in the state the first run left issues
the same list again, and memory is as it was before the first run. -/
theorem C6_runs_are_repeatable (nr : Nat) (argc : Int) (argv : Addr) (h : IsInt argc) :
    ∃ calls : List Syscall, ∀ m : Machine,
      ∃ r1 r2, main nr argc argv m = Except.ok r1 ∧ main nr argc argv r1 = Except.ok r2 ∧
        issued m r1 = calls ∧ issued r1 r2 = calls ∧
        r2.trace = m.trace ++ calls ++ calls ∧ r2.mem = m.mem := by
  refine ⟨helloCall nr :: dumpingCall nr ::
    List.replicate argc.toNat ⟨nr, [Arg.pointer argv]⟩, ?_⟩
  intro m
  obtain ⟨r1, hr1, hm1, ht1, hi1⟩ := main_issued nr argc argv m h.2
  obtain ⟨r2, hr2, hm2, ht2, hi2⟩ := main_issued nr argc argv r1 h.2
  refine ⟨r1, r2, hr1, hr2, hi1, hi2, ?_, ?_⟩
  · rw [ht2, ht1]
  · rw [hm2, hm1]

theorem C6_runs_are_repeatable_witness :
    IsInt 3 ∧
    ∃ calls : List Syscall, ∀ m : Machine,
      ∃ r1 r2, main 7 3 1000 m = Except.ok r1 ∧ main 7 3 1000 r1 = Except.ok r2 ∧
        issued m r1 = calls ∧ issued r1 r2 = calls ∧
        r2.trace = m.trace ++ calls ++ calls ∧ r2.mem = m.mem :=
  ⟨by decide, C6_runs_are_repeatable 7 3 1000 (by decide)⟩

/-- C7: with an empty argument vector (`argc = 0`) `main` issues exactly the two
banner calls and nothing else, no placeholder; and the first two calls of a run
with any other `int` argument count are these same two calls. -/
theorem C7_empty_vector_two_banners (nr : Nat) (argv : Addr) (m : Machine) (argc : Int)
    (h : IsInt argc) :
    ∃ r0, main nr 0 argv m = Except.ok r0 ∧
      issued m r0 = [⟨nr, [Arg.literal "init: hello, world!"]⟩,
        ⟨nr, [Arg.literal "init: dumping argv..."]⟩] ∧
      ((issued m r0).filter isArgDump).length = 0 ∧
      ∃ r, main nr argc argv m = Except.ok r ∧ (issued m r).take 2 = issued m r0 := by
  obtain ⟨r0, hr0, -, -, hi0⟩ := main_issued nr 0 argv m (by decide)
  obtain ⟨r, hr, -, -, hi⟩ := main_issued nr argc argv m h.2
  refine ⟨r0, hr0, ?_, ?_, r, hr, ?_⟩
  · rw [hi0]
    rfl
  · rw [hi0]
    rfl
  · rw [hi, hi0]
    rfl

theorem C7_empty_vector_two_banners_witness :
    IsInt 3 ∧
    ∃ r0, main 7 0 1000 ⟨sampleMem, []⟩ = Except.ok r0 ∧
      issued ⟨sampleMem, []⟩ r0 = [⟨7, [Arg.literal "init: hello, world!"]⟩,
        ⟨7, [Arg.literal "init: dumping argv..."]⟩] ∧
      ((issued ⟨sampleMem, []⟩ r0).filter isArgDump).length = 0 ∧
      ∃ r, main 7 3 1000 ⟨sampleMem, []⟩ = Except.ok r ∧
        (issued ⟨sampleMem, []⟩ r).take 2 = issued ⟨sampleMem, []⟩ r0 :=
  ⟨by decide, C7_empty_vector_two_banners 7 1000 ⟨sampleMem, []⟩ 3 (by decide)⟩

/-- C8: in the source as written every argument-dump call passes the pointer
`argv` itself: for every input the calls after the two banners are `argc` (or
zero, if `argc` is negative) copies of one call whose argument is `argv`,
whatever the loop index and the contents of memory are. -/
theorem C8_every_dump_passes_argv (nr : Nat) (argc : Int) (argv : Addr) (m : Machine)
    (h : IsInt argc) :
    ∃ r, main nr argc argv m = Except.ok r ∧
      (issued m r).drop 2 = List.replicate argc.toNat ⟨nr, [Arg.pointer argv]⟩ ∧
      ∀ (k : Nat) (c : Syscall), (issued m r)[k + 2]? = some c → c.args = [Arg.pointer argv] := by
  obtain ⟨r, hr, -, -, hi⟩ := main_issued nr argc argv m h.2
  refine ⟨r, hr, ?_, ?_⟩
  · rw [hi]
    rfl
  · intro k c hk
    rw [hi] at hk
    simp only [List.getElem?_cons_succ] at hk
    have hc := List.getElem?_mem hk
    rw [(List.mem_replicate.mp hc).2]

theorem C8_every_dump_passes_argv_witness :
    IsInt 3 ∧
    ∃ r, main 7 3 1000 ⟨sampleMem, []⟩ = Except.ok r ∧
      (issued ⟨sampleMem, []⟩ r).drop 2 = List.replicate (3 : Int).toNat ⟨7, [Arg.pointer 1000]⟩ ∧
      ∀ (k : Nat) (c : Syscall),
        (issued ⟨sampleMem, []⟩ r)[k + 2]? = some c → c.args = [Arg.pointer 1000] :=
  ⟨by decide, C8_every_dump_passes_argv 7 3 1000 ⟨sampleMem, []⟩ (by decide)⟩

/-- C9: for every `int` value of `argc`, negative ones included, `main` returns
without a signed overflow of the loop counter; the loop body has run exactly
`max(argc, 0)` times, one argument-dump call each, and for `argc < 0` the calls
of the run are exactly the two banners. -/
theorem C9_terminates_for_every_int (nr : Nat) (argc : Int) (argv : Addr) (m : Machine)
    (h : IsInt argc) :
    ∃ r, main nr argc argv m = Except.ok r ∧
      main nr argc argv m ≠ Except.error Fault.signedOverflow ∧
      (((issued m r).drop 2).length : Int) = max argc 0 ∧
      (argc < 0 → issued m r = [helloCall nr, dumpingCall nr]) := by
  obtain ⟨r, hr, -, -, hi⟩ := main_issued nr argc argv m h.2
  refine ⟨r, hr, ?_, ?_, ?_⟩
  · rw [hr]
    intro hne
    cases hne
  · rw [hi]
    simp only [List.drop_succ_cons, List.drop_zero, List.length_replicate]
    omega
  · intro hneg
    rw [hi]
    have h0 : argc.toNat = 0 := by omega
    rw [h0]
    rfl

theorem C9_terminates_for_every_int_witness :
    IsInt (-5) ∧
    ∃ r, main 7 (-5) 1000 ⟨sampleMem, []⟩ = Except.ok r ∧
      main 7 (-5) 1000 ⟨sampleMem, []⟩ ≠ Except.error Fault.signedOverflow ∧
      (((issued ⟨sampleMem, []⟩ r).drop 2).length : Int) = max (-5) 0 ∧
      ((-5 : Int) < 0 → issued ⟨sampleMem, []⟩ r = [helloCall 7, dumpingCall 7]) :=
  ⟨by decide, C9_terminates_for_every_int 7 (-5) 1000 ⟨sampleMem, []⟩ (by decide)⟩

/-- C10: `main` neither reads nor writes the argument vector: for every `int`
argument count, every pointer `argv` (null included) and every memory, mapped
at `argv` or not, with as many elements as `argc` says or fewer, `main` returns
without a bad access, leaves memory exactly as it was, and issues calls that do
not depend on what memory holds. -/
theorem C10_memory_untouched (nr : Nat) (argc : Int) (argv : Addr) (mem mem2 : Memory)
    (t : List Syscall) (h : IsInt argc) :
    ∃ r r2, main nr argc argv ⟨mem, t⟩ = Except.ok r ∧
      main nr argc argv ⟨mem2, t⟩ = Except.ok r2 ∧
      main nr argc argv ⟨mem, t⟩ ≠ Except.error Fault.badAccess ∧
      r.mem = mem ∧ r2.mem = mem2 ∧ r.trace = r2.trace := by
  obtain ⟨r, hr, hm, ht, -⟩ := main_issued nr argc argv ⟨mem, t⟩ h.2
  obtain ⟨r2, hr2, hm2, ht2, -⟩ := main_issued nr argc argv ⟨mem2, t⟩ h.2
  refine ⟨r, r2, hr, hr2, ?_, hm, hm2, ?_⟩
  · rw [hr]
    intro hne
    cases hne
  · rw [ht, ht2]

theorem C10_memory_untouched_witness :
    IsInt 3 ∧
    ∃ r r2, main 7 3 0 ⟨emptyMem, []⟩ = Except.ok r ∧
      main 7 3 0 ⟨sampleMem, []⟩ = Except.ok r2 ∧
      main 7 3 0 ⟨emptyMem, []⟩ ≠ Except.error Fault.badAccess ∧
      r.mem = emptyMem ∧ r2.mem = sampleMem ∧ r.trace = r2.trace :=
  ⟨by decide, C10_memory_untouched 7 3 0 emptyMem sampleMem [] (by decide)⟩

end Munix.Init
